import Mathlib

/-!
Verification of the extraction pipeline of `down_and_upload/Untitled-1.py`
(class `DouyinVideoDownloader`).  The pipeline `get_video_info` is embedded
shallowly: the HTTP fetch and the Playwright render collaborators are
modelled as a `World` of deterministic stubs (the spec's "deterministic
stubbed fetch/render collaborators"), and the Python string searches
(`re.search` over the fixed patterns of the source) are embedded as
executable functions over `List Char`.  Besides the `VideoInfo` result the
embedding returns the list of collaborator invocations (`Ev`), so that
"the render collaborator is never invoked" style properties are statable.
-/

/-! ## Slash decoding: Python `.replace('\\u002F', '/')` -/

/-- The six-character escape sequence (backslash, u, 0, 0, 2, F) that the
source decodes to a literal slash (source lines 83, 100, 177). -/
def slashSeq : List Char := ['\\', 'u', '0', '0', '2', 'F']

/-- Models Python `s.replace('\\u002F', '/')`: leftmost, non-overlapping
replacement of each occurrence of `slashSeq` by a single slash. -/
def decodeSlash : List Char → List Char
  | '\\' :: 'u' :: '0' :: '0' :: '2' :: 'F' :: rest => '/' :: decodeSlash rest
  | c :: rest => c :: decodeSlash rest
  | [] => []

/-- String wrapper for `decodeSlash`. -/
def decodeSlashStr (s : String) : String := (decodeSlash s.data).asString

/-- Decides whether the escape sequence `slashSeq` occurs in a list. -/
def containsSeq : List Char → Bool
  | [] => false
  | c :: rest => slashSeq.isPrefixOf (c :: rest) || containsSeq rest

/-! ## The regex searches of the source, over `List Char`

The source uses four shapes of `re.search` patterns:
* a quoted-key URL field, e.g. `"playAddr":"(https?://[^"]+)"`;
* the title field `"desc":"(.*?)"` (non-greedy, `.` excludes newline);
* the bare mp4 heuristic `(https?://v[^\s"']+\.mp4)` (greedy class,
  backtracking to the last `.mp4` inside the run);
all searched leftmost-first.  Each is embedded as a scan that tries every
start position from the left and applies the (deterministic) match attempt
of the pattern at that position.
-/

/-- The literal marker a quoted-key pattern must match first: `"key":"`. -/
def keyMarker (key : String) : List Char := '"' :: key.data ++ ['"', ':', '"']

/-- Whether a captured chunk is what `https?://[^"]+` accepts as a whole:
a scheme followed by at least one further character.  (The `s?` of the
regex is deterministic here: `http://` and `https://` cannot both head the
same text.) -/
def isAbsUrl (u : List Char) : Bool :=
  ("http://".data.isPrefixOf u && decide (7 < u.length)) ||
  ("https://".data.isPrefixOf u && decide (8 < u.length))

/-- Leftmost search for `"key":"(https?://[^"]+)"` (with `marker` the
quoted-key part): at each position where the marker matches, the candidate
capture is everything up to the next double quote; it matches when that
closing quote exists and the capture is an absolute URL, and otherwise the
scan resumes one character further right, exactly as `re.search` does. -/
def searchKeyUrlAux (marker : List Char) : List Char → Option (List Char)
  | [] => none
  | c :: rest =>
    if marker.isPrefixOf (c :: rest) then
      let after := (c :: rest).drop marker.length
      let u := after.takeWhile (fun d => d != '"')
      if decide (u.length < after.length) && isAbsUrl u then some u
      else searchKeyUrlAux marker rest
    else searchKeyUrlAux marker rest

/-- Models `re.search('"<key>":"(https?://[^"]+)"', html)`, returning the
captured group (source lines 81, 98, 174). -/
def searchKeyUrl (key : String) (html : String) : Option String :=
  (searchKeyUrlAux (keyMarker key) html.data).map List.asString

/-- Leftmost search for the title pattern: at each position where
`"desc":"` matches, the non-greedy capture is everything up to the next
double quote, valid when that quote exists and no newline intervenes
(Python `.` does not match a newline). -/
def searchDescAux : List Char → Option (List Char)
  | [] => none
  | c :: rest =>
    if (keyMarker "desc").isPrefixOf (c :: rest) then
      let after := (c :: rest).drop (keyMarker "desc").length
      let u := after.takeWhile (fun d => d != '"')
      if decide (u.length < after.length) && u.all (fun d => d != '\n') then some u
      else searchDescAux rest
    else searchDescAux rest

/-- Models `re.search('"desc":"(.*?)"', html)` (source line 77). -/
def searchDesc (html : String) : Option String :=
  (searchDescAux html.data).map List.asString

/-- A character that terminates the character class of the mp4 heuristic,
i.e. is excluded by Python's regex class of non-whitespace, non-quote
characters (ASCII whitespace plus the two quote characters). -/
def mp4Delim (c : Char) : Bool :=
  c == ' ' || c == '\t' || c == '\n' || c == '\r' || c == '\x0b' || c == '\x0c' ||
  c == '"' || c == '\''

/-- The backtracking of the greedy class in `https?://v[^\s"']+\.mp4`:
the largest cut `k ≥ 1` of the maximal class run such that the literal
`.mp4` follows at that cut. -/
def mp4CutIndex (run : List Char) : Option Nat :=
  ((List.range run.length).filter
    (fun k => decide (1 ≤ k) && ".mp4".data.isPrefixOf (run.drop k))).getLast?

/-- Attempt of the mp4 heuristic at one fixed start position. -/
def searchMp4At (s : List Char) : Option (List Char) :=
  let pre : Option (List Char) :=
    if "https://v".data.isPrefixOf s then some "https://v".data
    else if "http://v".data.isPrefixOf s then some "http://v".data
    else none
  match pre with
  | none => none
  | some p =>
    let run := (s.drop p.length).takeWhile (fun d => !mp4Delim d)
    match mp4CutIndex run with
    | none => none
    | some k => some (p ++ run.take (k + 4))

/-- Leftmost scan of the mp4 heuristic. -/
def searchMp4Aux : List Char → Option (List Char)
  | [] => none
  | c :: rest =>
    match searchMp4At (c :: rest) with
    | some u => some u
    | none => searchMp4Aux rest

/-- Models `re.search('(https?://v[^\s"\x27]+\.mp4)', text)`
(last candidate of source line 174). -/
def searchMp4 (html : String) : Option String :=
  (searchMp4Aux html.data).map List.asString

/-! ## Data model and collaborator stubs -/

/-- The placeholder title of the source (`VideoInfo` default, line 24). -/
def defaultTitle : String := "未命名视频"

/-- The fixed terminal diagnostic of the source (line 103). -/
def noUrlMsg : String := "未能提取到视频URL，可能需要登录或页面结构已变更"

/-- The `VideoInfo` dataclass of the source (lines 22-27), the spec's
`ExtractionResult`: `title`/`video_url`/`success`/`message` play the roles
of title/mediaUrl/succeeded/failureReason. -/
structure VideoInfo where
  title : String := defaultTitle
  video_url : Option String := none
  success : Bool := false
  message : Option String := none
deriving Repr, DecidableEq

/-- What a completed `requests.get` returns: HTTP status, final
(post-redirect) URL, body text.  The source reads `status_code` only in a
debug print. -/
structure FetchResponse where
  status_code : Nat
  url : String
  text : String
deriving Repr, DecidableEq

/-- Collaborator invocations recorded by the embedding: the static fetch,
the DOM-query engagement of the browser (`_extract_playaddr_with_playwright`
reaching the launched page), its script-scan sub-stage, and the
snapshot render (`_render_with_playwright` reaching the launched page). -/
inductive Ev where
  | fetch (url : String)
  | domRender (url : String)
  | scriptScan (url : String)
  | snapshotRender (url : String)
deriving Repr, DecidableEq

/-- Deterministic stubs for the two collaborators, as functions of the
requested URL:
* `fetchResult`: outcome of `session.get` — either a raised
  `requests.RequestException` rendered as its message string (`.error`),
  or a response (a non-2xx status is a response, not an exception, since
  the source never calls `raise_for_status` here);
* `domAvailable`: the `playwright` import inside
  `_extract_playaddr_with_playwright` succeeds;
* `domLaunchOk`: browser launch / navigation of that function succeeds
  (its outer `try`);
* `domVideoSrc`: the `src` attribute obtained from the `video` element,
  `none` when the wait times out, no element exists, or the attribute is
  missing;
* `scriptsText`: result of concatenating all script text contents,
  `none` when that evaluation raises;
* `domPageContent`: the `page.content()` fallback used in that case;
* `snapAvailable`: the `playwright` import inside
  `_render_with_playwright` succeeds;
* `snapHtml`: the rendered HTML of `_render_with_playwright`, `none` when
  rendering raises. -/
structure World where
  fetchResult : String → Except String FetchResponse
  domAvailable : Bool
  domLaunchOk : String → Bool
  domVideoSrc : String → Option String
  scriptsText : String → Option String
  domPageContent : String → String
  snapAvailable : Bool
  snapHtml : String → Option String

/-! ## The extraction pipeline -/

/-- The candidate patterns of the script-scan stage, in source order
(line 174): playAddr, srcNoMark, downloadAddr, then the bare mp4
heuristic. -/
def candidateSearches : List (String → Option String) :=
  [searchKeyUrl "playAddr", searchKeyUrl "srcNoMark", searchKeyUrl "downloadAddr", searchMp4]

/-- The `for pat in [...]` loop of source lines 174-180: first match wins,
and the winning capture is slash-decoded. -/
def scanFirst : List (String → Option String) → String → Option String
  | [], _ => none
  | p :: ps, text =>
    match p text with
    | some u => some (decodeSlashStr u)
    | none => scanFirst ps text

/-- The script-scan sub-stage of `_extract_playaddr_with_playwright`
(source lines 167-180): the scanned text is the concatenated script texts,
falling back to `page.content()` when that evaluation raises. -/
def domScriptScan (w : World) (url : String) : Option String × List Ev :=
  let scripts_text := (w.scriptsText url).getD (w.domPageContent url)
  (scanFirst candidateSearches scripts_text, [Ev.domRender url, Ev.scriptScan url])

/-- `_extract_playaddr_with_playwright` (source lines 132-187): `none`
when the import fails or the outer `try` raises; otherwise the `video`
element's `src` when truthy (Python: non-`None` and non-empty), else the
script scan. -/
def extract_playaddr_with_playwright (w : World) (url : String) : Option String × List Ev :=
  if w.domAvailable = false then (none, [])
  else if w.domLaunchOk url = false then (none, [Ev.domRender url])
  else
    match w.domVideoSrc url with
    | some src => if src ≠ "" then (some src, [Ev.domRender url]) else domScriptScan w url
    | none => domScriptScan w url

/-- `_render_with_playwright` (source lines 105-130): `none` when the
module import fails (no browser engaged) or the render raises. -/
def render_with_playwright (w : World) (url : String) : Option String × List Ev :=
  if w.snapAvailable = false then (none, [])
  else (w.snapHtml url, [Ev.snapshotRender url])

/-- Source lines 95-103: if the rendered snapshot is truthy, re-run the
static playAddr pattern on it; a hit is slash-decoded and succeeds with
the stage-2 title, anything else yields the fixed terminal failure, whose
`VideoInfo` keeps the dataclass defaults (placeholder title, no URL). -/
def snapshotFallback (w : World) (share_url : String) (title : String) (ev1 : List Ev) :
    VideoInfo × List Ev :=
  let rd := render_with_playwright w share_url
  let evs := Ev.fetch share_url :: ev1 ++ rd.2
  match rd.1 with
  | some rendered =>
    if rendered ≠ "" then
      match searchKeyUrl "playAddr" rendered with
      | some u =>
        ({ title := title, video_url := some (decodeSlashStr u), success := true,
           message := none }, evs)
      | none => ({ title := defaultTitle, video_url := none, success := false,
                   message := some noUrlMsg }, evs)
    else ({ title := defaultTitle, video_url := none, success := false,
            message := some noUrlMsg }, evs)
  | none => ({ title := defaultTitle, video_url := none, success := false,
               message := some noUrlMsg }, evs)

/-- Source lines 85-94: the DOM stage.  The `try/except` around the call
is absorbed: the callee already catches everything and returns `None`
(here `none`).  A truthy result is returned verbatim as the video URL;
a falsy one (Python: `None` or the empty string) falls through to the
snapshot stage. -/
def renderFallback (w : World) (share_url : String) (title : String) : VideoInfo × List Ev :=
  let pa := extract_playaddr_with_playwright w share_url
  match pa.1 with
  | some s =>
    if s ≠ "" then
      ({ title := title, video_url := some s, success := true, message := none },
       Ev.fetch share_url :: pa.2)
    else snapshotFallback w share_url title pa.2
  | none => snapshotFallback w share_url title pa.2

/-- `get_video_info` (source lines 57-103), the spec's `extract`.  A raised
fetch exception returns failure with the exception text at once (lines
68-70); otherwise the title is the desc capture if any (lines 76-79), a
static playAddr hit is slash-decoded and succeeds immediately (lines
81-84), and otherwise the render fallbacks run. -/
def get_video_info (w : World) (share_url : String) : VideoInfo × List Ev :=
  match w.fetchResult share_url with
  | .error exc =>
    ({ title := defaultTitle, video_url := none, success := false, message := some exc },
     [Ev.fetch share_url])
  | .ok resp =>
    let html := resp.text
    let title := (searchDesc html).getD defaultTitle
    match searchKeyUrl "playAddr" html with
    | some u =>
      ({ title := title, video_url := some (decodeSlashStr u), success := true,
         message := none }, [Ev.fetch share_url])
    | none => renderFallback w share_url title

/-! ## Properties of the slash decoding -/

theorem decodeSlash_seq (rest : List Char) :
    decodeSlash ('\\' :: 'u' :: '0' :: '0' :: '2' :: 'F' :: rest) = '/' :: decodeSlash rest := rfl

theorem decodeSlash_cons (c : Char) (rest : List Char)
    (h : ¬ slashSeq.isPrefixOf (c :: rest)) :
    decodeSlash (c :: rest) = c :: decodeSlash rest := by
  rw [decodeSlash.eq_def]
  split
  · rename_i rest1 heq
    exfalso
    apply h
    rw [heq]
    simp [slashSeq, List.isPrefixOf]
  · rename_i c2 rest2 hne heq
    injection heq with h1 h2
    subst h1; subst h2
    rfl
  · rename_i l heq
    exact absurd heq (List.cons_ne_nil c rest)

theorem decodeSlash_ne_nil (c : Char) (rest : List Char) : decodeSlash (c :: rest) ≠ [] := by
  by_cases h : slashSeq.isPrefixOf (c :: rest)
  · rw [ List.isPrefixOf_iff_prefix] at h
    obtain ⟨t, ht⟩ := h
    simp only [slashSeq] at ht
    rw [← ht]
    simp [decodeSlash]
  · rw [decodeSlash_cons c rest h]
    simp

theorem decodeSlash_lift (w : List Char) (hw : w <:+ ['u', '0', '0', '2', 'F']) :
    ∀ s : List Char, w <+: decodeSlash s → w <+: s := by
  induction w with
  | nil => exact fun s _ => List.nil_prefix
  | cons a w' ih =>
    intro s hp
    have ha : a ≠ '/' := by
      have : a ∈ ['u', '0', '0', '2', 'F'] := hw.subset (List.mem_cons_self a w')
      simp at this
      rcases this with rfl | rfl | rfl | rfl | rfl <;> decide
    have hw' : w' <:+ ['u', '0', '0', '2', 'F'] :=
      List.IsSuffix.trans (List.suffix_cons a w') hw
    match s with
    | [] =>
      simp [decodeSlash] at hp
    | c :: rest =>
      by_cases hc : slashSeq.isPrefixOf (c :: rest)
      · rw [ List.isPrefixOf_iff_prefix] at hc
        obtain ⟨t, ht⟩ := hc
        simp only [slashSeq] at ht
        rw [← ht] at hp
        simp only [List.cons_append] at hp
        rw [decodeSlash_seq] at hp
        rw [List.cons_prefix_cons] at hp
        exact absurd hp.1 ha
      · rw [decodeSlash_cons c rest hc] at hp
        rw [List.cons_prefix_cons] at hp ⊢
        exact ⟨hp.1, ih hw' rest hp.2⟩

theorem decodeSlash_no_seq_aux :
    ∀ n (s : List Char), s.length = n → containsSeq (decodeSlash s) = false := by
  intro n
  induction n using Nat.strong_induction_on with
  | _ n ih =>
    intro s hn
    match s with
    | [] => rfl
    | c :: rest =>
      by_cases hc : slashSeq.isPrefixOf (c :: rest)
      · rw [ List.isPrefixOf_iff_prefix] at hc
        obtain ⟨t, ht⟩ := hc
        simp only [slashSeq] at ht
        rw [← ht]
        simp only [List.cons_append, List.nil_append]
        rw [decodeSlash_seq]
        rw [containsSeq]
        have h1 : slashSeq.isPrefixOf ('/' :: decodeSlash t) = false := by
          rw [Bool.eq_false_iff]
          intro hpre
          rw [ List.isPrefixOf_iff_prefix] at hpre
          simp only [slashSeq] at hpre
          rw [List.cons_prefix_cons] at hpre
          exact absurd hpre.1 (by decide)
        rw [h1]
        have hlen : t.length < n := by
          rw [← ht] at hn
          simp at hn
          omega
        rw [ih t.length hlen t rfl]
        rfl
      · rw [decodeSlash_cons c rest hc, containsSeq]
        have h1 : slashSeq.isPrefixOf (c :: decodeSlash rest) = false := by
          rw [Bool.eq_false_iff]
          intro hpre
          rw [ List.isPrefixOf_iff_prefix] at hpre
          simp only [slashSeq] at hpre
          rw [List.cons_prefix_cons] at hpre
          have h2 : ['u', '0', '0', '2', 'F'] <+: rest :=
            decodeSlash_lift _ (List.suffix_refl _) rest hpre.2
          apply hc
          rw [ List.isPrefixOf_iff_prefix]
          simp only [slashSeq]
          rw [List.cons_prefix_cons]
          exact ⟨hpre.1, h2⟩
        have hlen : rest.length < n := by
          subst hn; simp
        rw [h1, ih rest.length hlen rest rfl]
        rfl

theorem decodeSlash_no_seq (s : List Char) : containsSeq (decodeSlash s) = false :=
  decodeSlash_no_seq_aux s.length s rfl

theorem decodeSlash_of_no_seq : ∀ l : List Char, containsSeq l = false → decodeSlash l = l := by
  intro l
  induction l with
  | nil => intro _; rfl
  | cons c rest ih =>
    intro h
    rw [containsSeq, Bool.or_eq_false_iff] at h
    rw [decodeSlash_cons c rest (by rw [h.1]; intro hcontra; exact Bool.false_ne_true hcontra)]
    rw [ih h.2]

theorem data_asString (l : List Char) : (List.asString l).data = l := rfl

theorem asString_ne_empty {l : List Char} (h : l ≠ []) : l.asString ≠ "" := by
  intro he
  apply h
  have := congrArg String.data he
  rw [data_asString] at this
  exact this

theorem decodeSlashStr_ne_empty {u : String} (h : u.data ≠ []) : decodeSlashStr u ≠ "" := by
  rw [decodeSlashStr]
  apply asString_ne_empty
  match hu : u.data with
  | [] => exact absurd hu h
  | c :: rest => exact decodeSlash_ne_nil c rest

theorem containsSeq_decodeSlashStr (u : String) :
    containsSeq (decodeSlashStr u).data = false := by
  rw [decodeSlashStr, data_asString]
  exact decodeSlash_no_seq u.data

/-! ## Shape facts about the searches: every hit is a nonempty capture -/

theorem isAbsUrl_length {u : List Char} (h : isAbsUrl u = true) : 7 < u.length := by
  rw [isAbsUrl, Bool.or_eq_true, Bool.and_eq_true, Bool.and_eq_true] at h
  rcases h with ⟨-, h⟩ | ⟨-, h⟩ <;> rw [decide_eq_true_eq] at h <;> omega

theorem searchKeyUrlAux_some_length {marker : List Char} :
    ∀ {l u : List Char}, searchKeyUrlAux marker l = some u → 7 < u.length := by
  intro l
  induction l with
  | nil => intro u h; simp [searchKeyUrlAux] at h
  | cons c rest ih =>
    intro u h
    simp only [searchKeyUrlAux] at h
    split at h
    · split at h
      · rename_i hcond
        rw [Bool.and_eq_true] at hcond
        injection h with h
        rw [← h]
        exact isAbsUrl_length hcond.2
      · exact ih h
    · exact ih h

theorem searchKeyUrl_some_ne {key html u : String}
    (h : searchKeyUrl key html = some u) : u.data ≠ [] := by
  rw [searchKeyUrl] at h
  match hl : searchKeyUrlAux (keyMarker key) html.data with
  | none => rw [hl] at h; simp at h
  | some l =>
    rw [hl] at h
    simp only [Option.map_some'] at h
    injection h with h
    rw [← h, data_asString]
    have := searchKeyUrlAux_some_length hl
    intro hnil
    rw [hnil] at this
    simp at this

theorem searchMp4At_some_ne : ∀ {s u : List Char}, searchMp4At s = some u → u ≠ [] := by
  intro s u h
  simp only [searchMp4At] at h
  split at h
  · exact absurd h (by simp)
  · rename_i p hp
    split at h
    · exact absurd h (by simp)
    · injection h with h
      split at hp
      · injection hp with hp
        rw [← h, ← hp]
        simp
      · split at hp
        · injection hp with hp
          rw [← h, ← hp]
          simp
        · exact absurd hp (by simp)

theorem searchMp4Aux_some_ne : ∀ {l u : List Char}, searchMp4Aux l = some u → u ≠ [] := by
  intro l
  induction l with
  | nil => intro u h; simp [searchMp4Aux] at h
  | cons c rest ih =>
    intro u h
    rw [searchMp4Aux] at h
    split at h
    · rename_i v hv
      injection h with h
      rw [← h]
      exact searchMp4At_some_ne hv
    · exact ih h

theorem searchMp4_some_ne {html u : String} (h : searchMp4 html = some u) : u.data ≠ [] := by
  rw [searchMp4] at h
  match hl : searchMp4Aux html.data with
  | none => rw [hl] at h; simp at h
  | some l =>
    rw [hl] at h
    simp only [Option.map_some'] at h
    injection h with h
    rw [← h, data_asString]
    exact searchMp4Aux_some_ne hl

theorem scanFirst_eq_decode :
    ∀ (ps : List (String → Option String)) (st v : String),
      scanFirst ps st = some v →
      ∃ u, v = decodeSlashStr u ∧ ∃ p, p ∈ ps ∧ p st = some u := by
  intro ps
  induction ps with
  | nil => intro st v h; simp [scanFirst] at h
  | cons p ps ih =>
    intro st v h
    rw [scanFirst] at h
    split at h
    · rename_i u hu
      injection h with h
      exact ⟨u, h.symm, p, List.mem_cons_self p ps, hu⟩
    · obtain ⟨u, hv, q, hq, hqst⟩ := ih st v h
      exact ⟨u, hv, q, List.mem_cons_of_mem p hq, hqst⟩

theorem candidate_some_ne {p : String → Option String} (hp : p ∈ candidateSearches)
    {st u : String} (h : p st = some u) : u.data ≠ [] := by
  rw [candidateSearches] at hp
  simp only [List.mem_cons, List.not_mem_nil, or_false] at hp
  rcases hp with rfl | rfl | rfl | rfl
  · exact searchKeyUrl_some_ne h
  · exact searchKeyUrl_some_ne h
  · exact searchKeyUrl_some_ne h
  · exact searchMp4_some_ne h

theorem scanFirst_candidates_props {st v : String}
    (h : scanFirst candidateSearches st = some v) :
    v ≠ "" ∧ containsSeq v.data = false := by
  obtain ⟨u, rfl, p, hp, hpst⟩ := scanFirst_eq_decode candidateSearches st _ h
  exact ⟨decodeSlashStr_ne_empty (candidate_some_ne hp hpst), containsSeq_decodeSlashStr u⟩

/-! ## Shape facts about the pipeline stages -/

theorem extract_playaddr_some {w : World} {url s : String}
    (h : (extract_playaddr_with_playwright w url).1 = some s) :
    w.domVideoSrc url = some s ∨
    scanFirst candidateSearches ((w.scriptsText url).getD (w.domPageContent url)) = some s := by
  rw [extract_playaddr_with_playwright] at h
  split at h
  · simp at h
  · split at h
    · simp at h
    · split at h
      · rename_i src heq
        split at h
        · injection h with h
          rw [← h]
          exact Or.inl heq
        · rw [domScriptScan] at h
          exact Or.inr h
      · rw [domScriptScan] at h
        exact Or.inr h

theorem snapshotFallback_fst (w : World) (url title : String) (ev : List Ev) :
    (∃ u : String, u.data ≠ [] ∧ (snapshotFallback w url title ev).1 =
      { title := title, video_url := some (decodeSlashStr u), success := true,
        message := none }) ∨
    (snapshotFallback w url title ev).1 =
      { title := defaultTitle, video_url := none, success := false, message := some noUrlMsg } := by
  simp only [snapshotFallback]
  split
  · split
    · split
      · rename_i rendered hrd hr u hsr
        exact Or.inl ⟨u, searchKeyUrl_some_ne hsr, rfl⟩
      · exact Or.inr rfl
    · exact Or.inr rfl
  · exact Or.inr rfl

theorem renderFallback_fst (w : World) (url title : String) :
    (∃ s : String, s ≠ "" ∧ (extract_playaddr_with_playwright w url).1 = some s ∧
      (renderFallback w url title).1 =
      { title := title, video_url := some s, success := true, message := none }) ∨
    (∃ u : String, u.data ≠ [] ∧ (renderFallback w url title).1 =
      { title := title, video_url := some (decodeSlashStr u), success := true,
        message := none }) ∨
    (renderFallback w url title).1 =
      { title := defaultTitle, video_url := none, success := false, message := some noUrlMsg } := by
  simp only [renderFallback]
  split
  · rename_i s hpa
    split
    · rename_i hs
      exact Or.inl ⟨s, hs, hpa, rfl⟩
    · rcases snapshotFallback_fst w url title (extract_playaddr_with_playwright w url).2 with
        ⟨u, hu, heq⟩ | heq
      · exact Or.inr (Or.inl ⟨u, hu, heq⟩)
      · exact Or.inr (Or.inr heq)
  · rcases snapshotFallback_fst w url title (extract_playaddr_with_playwright w url).2 with
      ⟨u, hu, heq⟩ | heq
    · exact Or.inr (Or.inl ⟨u, hu, heq⟩)
    · exact Or.inr (Or.inr heq)

theorem get_video_info_ok_fst (w : World) (url : String) (resp : FetchResponse)
    (hf : w.fetchResult url = Except.ok resp) :
    (∃ u : String, u.data ≠ [] ∧ (get_video_info w url).1 =
      { title := (searchDesc resp.text).getD defaultTitle,
        video_url := some (decodeSlashStr u), success := true, message := none }) ∨
    (∃ s : String, s ≠ "" ∧ (extract_playaddr_with_playwright w url).1 = some s ∧
      (get_video_info w url).1 =
      { title := (searchDesc resp.text).getD defaultTitle,
        video_url := some s, success := true, message := none }) ∨
    (get_video_info w url).1 =
      { title := defaultTitle, video_url := none, success := false,
        message := some noUrlMsg } := by
  simp only [get_video_info, hf]
  cases hp : searchKeyUrl "playAddr" resp.text with
  | some u => exact Or.inl ⟨u, searchKeyUrl_some_ne hp, rfl⟩
  | none =>
    rcases renderFallback_fst w url ((searchDesc resp.text).getD defaultTitle) with
      ⟨s, hs, hpa, heq⟩ | ⟨u, hu, heq⟩ | heq
    · exact Or.inr (Or.inl ⟨s, hs, hpa, heq⟩)
    · exact Or.inl ⟨u, hu, heq⟩
    · exact Or.inr (Or.inr heq)

/-! ## Claim C1 -/

/-- Body of the C1 refutation world: a page that carries a playAddr. -/
def c1Body : String := "\x7b\"playAddr\":\"https://a\\u002Fb\"\x7d"

/-- World for the C1 refutation: the fetch completes with HTTP status 404
(requests raises no exception for a non-2xx status unless
`raise_for_status` is called, which `get_video_info` never does). -/
def c1World : World :=
  { fetchResult := fun _ => Except.ok { status_code := 404, url := "https://resolved", text := c1Body }
    domAvailable := false
    domLaunchOk := fun _ => false
    domVideoSrc := fun _ => none
    scriptsText := fun _ => none
    domPageContent := fun _ => ""
    snapAvailable := false
    snapHtml := fun _ => none }

/-- C1 counterexample: the claim counts a non-2xx status code as a failed
static fetch, but `get_video_info` never inspects `status_code`; on a 404
response whose body carries a playAddr it returns `success = true` with no
failure reason, contradicting the claimed `succeeded = false`. -/
theorem c1_counterexample :
    c1World.fetchResult "https://v.douyin.com/x" =
      Except.ok { status_code := 404, url := "https://resolved", text := c1Body } ∧
    (get_video_info c1World "https://v.douyin.com/x").1.success = true ∧
    (get_video_info c1World "https://v.douyin.com/x").1.message = none :=
  ⟨rfl, by decide, by decide⟩

/-- C1 (amended to raised transport errors only): when the fetch raises a
`requests.RequestException` (DNS, connection, timeout), `get_video_info`
returns at once with `success = false` and the exception text as the
message, and no render collaborator is ever invoked. -/
theorem c1_transport_error_aborts (w : World) (url exc : String)
    (h : w.fetchResult url = Except.error exc) :
    get_video_info w url =
      ({ title := defaultTitle, video_url := none, success := false, message := some exc },
       [Ev.fetch url]) ∧
    Ev.domRender url ∉ (get_video_info w url).2 ∧
    Ev.scriptScan url ∉ (get_video_info w url).2 ∧
    Ev.snapshotRender url ∉ (get_video_info w url).2 := by
  have heq : get_video_info w url =
      ({ title := defaultTitle, video_url := none, success := false, message := some exc },
       [Ev.fetch url]) := by
    simp [get_video_info, h]
  refine ⟨heq, ?_, ?_, ?_⟩ <;> rw [heq] <;> simp

/-- World for the C1 witness: the fetch raises. -/
def c1ErrWorld : World :=
  { fetchResult := fun _ => Except.error "HTTPSConnectionPool: Max retries exceeded"
    domAvailable := true
    domLaunchOk := fun _ => true
    domVideoSrc := fun _ => some "https://x"
    scriptsText := fun _ => none
    domPageContent := fun _ => ""
    snapAvailable := true
    snapHtml := fun _ => none }

/-- Witness for C1: a concrete raising fetch. -/
theorem c1_transport_error_aborts_witness :
    c1ErrWorld.fetchResult "https://v.douyin.com/x" =
      Except.error "HTTPSConnectionPool: Max retries exceeded" ∧
    (get_video_info c1ErrWorld "https://v.douyin.com/x" =
      ({ title := defaultTitle, video_url := none, success := false,
         message := some "HTTPSConnectionPool: Max retries exceeded" },
       [Ev.fetch "https://v.douyin.com/x"]) ∧
    Ev.domRender "https://v.douyin.com/x" ∉ (get_video_info c1ErrWorld "https://v.douyin.com/x").2 ∧
    Ev.scriptScan "https://v.douyin.com/x" ∉ (get_video_info c1ErrWorld "https://v.douyin.com/x").2 ∧
    Ev.snapshotRender "https://v.douyin.com/x" ∉
      (get_video_info c1ErrWorld "https://v.douyin.com/x").2) :=
  ⟨rfl, c1_transport_error_aborts c1ErrWorld "https://v.douyin.com/x"
    "HTTPSConnectionPool: Max retries exceeded" rfl⟩

/-! ## Claim C2 -/

/-- C2: whenever the fetch completes and the body contains a well-formed
quoted playAddr field with an absolute http(s) URL (i.e. the static regex
hits, capturing `u`), `get_video_info` succeeds immediately with that URL
slash-decoded, and no render collaborator is invoked. -/
theorem c2_static_playaddr_success (w : World) (url : String) (resp : FetchResponse) (u : String)
    (hf : w.fetchResult url = Except.ok resp)
    (hp : searchKeyUrl "playAddr" resp.text = some u) :
    get_video_info w url =
      ({ title := (searchDesc resp.text).getD defaultTitle,
         video_url := some (decodeSlashStr u), success := true, message := none },
       [Ev.fetch url]) ∧
    Ev.domRender url ∉ (get_video_info w url).2 ∧
    Ev.scriptScan url ∉ (get_video_info w url).2 ∧
    Ev.snapshotRender url ∉ (get_video_info w url).2 := by
  have heq : get_video_info w url =
      ({ title := (searchDesc resp.text).getD defaultTitle,
         video_url := some (decodeSlashStr u), success := true, message := none },
       [Ev.fetch url]) := by
    simp [get_video_info, hf, hp]
  refine ⟨heq, ?_, ?_, ?_⟩ <;> rw [heq] <;> simp

/-- Body of the C2 witness world. -/
def c2Body : String :=
  "\x7b\"desc\":\"测试视频\",\"playAddr\":\"https://v26.douyinvod.com\\u002Fvideo.mp4\"\x7d"

/-- Response of the C2 witness world. -/
def c2Resp : FetchResponse := { status_code := 200, url := "https://www.douyin.com/video/1", text := c2Body }

/-- Captured playAddr group of the C2 witness body. -/
def c2Url : String := "https://v26.douyinvod.com\\u002Fvideo.mp4"

/-- World for the C2 witness. -/
def c2World : World :=
  { fetchResult := fun _ => Except.ok c2Resp
    domAvailable := true
    domLaunchOk := fun _ => true
    domVideoSrc := fun _ => some "https://other"
    scriptsText := fun _ => none
    domPageContent := fun _ => ""
    snapAvailable := true
    snapHtml := fun _ => none }

/-- Witness for C2: on the concrete body, the capture is the escaped URL
and the result holds the decoded `https://v26.douyinvod.com/video.mp4`. -/
theorem c2_static_playaddr_success_witness :
    c2World.fetchResult "https://share" = Except.ok c2Resp ∧
    searchKeyUrl "playAddr" c2Resp.text = some c2Url ∧
    decodeSlashStr c2Url = "https://v26.douyinvod.com/video.mp4" ∧
    (get_video_info c2World "https://share" =
      ({ title := (searchDesc c2Resp.text).getD defaultTitle,
         video_url := some (decodeSlashStr c2Url), success := true, message := none },
       [Ev.fetch "https://share"]) ∧
    Ev.domRender "https://share" ∉ (get_video_info c2World "https://share").2 ∧
    Ev.scriptScan "https://share" ∉ (get_video_info c2World "https://share").2 ∧
    Ev.snapshotRender "https://share" ∉ (get_video_info c2World "https://share").2) :=
  ⟨rfl, by decide, by decide,
    c2_static_playaddr_success c2World "https://share" c2Resp c2Url rfl (by decide)⟩

/-! ## Claim C4 -/

/-- C4: when the body has no static playAddr hit and the playwright import
fails in both `_extract_playaddr_with_playwright` (DOM-query mode) and
`_render_with_playwright` (snapshot mode), `get_video_info` returns
`success = false` with the fixed "may require login or structure changed"
diagnostic. -/
theorem c4_render_unavailable_fixed_reason (w : World) (url : String) (resp : FetchResponse)
    (hf : w.fetchResult url = Except.ok resp)
    (hp : searchKeyUrl "playAddr" resp.text = none)
    (hdom : w.domAvailable = false)
    (hsnap : w.snapAvailable = false) :
    get_video_info w url =
      ({ title := defaultTitle, video_url := none, success := false, message := some noUrlMsg },
       [Ev.fetch url]) := by
  simp [get_video_info, hf, hp, renderFallback, extract_playaddr_with_playwright, hdom,
    snapshotFallback, render_with_playwright, hsnap]

/-- Body of the C4 witness world: a desc is present but no media URL. -/
def c4Body : String := "<html>\x7b\"desc\":\"需要登录\"\x7d</html>"

/-- World for the C4 witness: playwright unavailable in both modes. -/
def c4World : World :=
  { fetchResult := fun _ => Except.ok { status_code := 200, url := "https://resolved", text := c4Body }
    domAvailable := false
    domLaunchOk := fun _ => false
    domVideoSrc := fun _ => none
    scriptsText := fun _ => none
    domPageContent := fun _ => ""
    snapAvailable := false
    snapHtml := fun _ => none }

/-- Witness for C4. -/
theorem c4_render_unavailable_fixed_reason_witness :
    c4World.fetchResult "https://share" =
      Except.ok { status_code := 200, url := "https://resolved", text := c4Body } ∧
    searchKeyUrl "playAddr" c4Body = none ∧
    get_video_info c4World "https://share" =
      ({ title := defaultTitle, video_url := none, success := false, message := some noUrlMsg },
       [Ev.fetch "https://share"]) :=
  ⟨rfl, by decide,
    c4_render_unavailable_fixed_reason c4World "https://share"
      { status_code := 200, url := "https://resolved", text := c4Body } rfl (by decide) rfl rfl⟩

/-! ## Claim C5 -/

/-- C5: when the static stage misses but the DOM query obtains a `video`
element with a truthy (non-empty) `src`, `get_video_info` succeeds with
that `src` verbatim (no slash decoding), and neither the script-scan
sub-stage nor the snapshot-rescan stage runs. -/
theorem c5_dom_src_verbatim (w : World) (url : String) (resp : FetchResponse) (s : String)
    (hf : w.fetchResult url = Except.ok resp)
    (hp : searchKeyUrl "playAddr" resp.text = none)
    (hav : w.domAvailable = true)
    (hl : w.domLaunchOk url = true)
    (hsrc : w.domVideoSrc url = some s)
    (hne : s ≠ "") :
    get_video_info w url =
      ({ title := (searchDesc resp.text).getD defaultTitle,
         video_url := some s, success := true, message := none },
       [Ev.fetch url, Ev.domRender url]) ∧
    Ev.scriptScan url ∉ (get_video_info w url).2 ∧
    Ev.snapshotRender url ∉ (get_video_info w url).2 := by
  have heq : get_video_info w url =
      ({ title := (searchDesc resp.text).getD defaultTitle,
         video_url := some s, success := true, message := none },
       [Ev.fetch url, Ev.domRender url]) := by
    simp [get_video_info, hf, hp, renderFallback, extract_playaddr_with_playwright, hav, hl,
      hsrc, hne]
  refine ⟨heq, ?_, ?_⟩ <;> rw [heq] <;> simp

/-- Body of the C5 witness world: no static playAddr. -/
def c5Body : String := "<html>login wall</html>"

/-- The verbatim DOM `src` of the C5 witness: it even contains an escaped
slash, which the DOM path does not decode. -/
def c5Src : String := "blob:https://www.douyin.com/393-abc"

/-- World for the C5 witness. -/
def c5World : World :=
  { fetchResult := fun _ => Except.ok { status_code := 200, url := "https://resolved", text := c5Body }
    domAvailable := true
    domLaunchOk := fun _ => true
    domVideoSrc := fun _ => some c5Src
    scriptsText := fun _ => some "\x7b\"downloadAddr\":\"https://should.not/win.mp4\"\x7d"
    domPageContent := fun _ => ""
    snapAvailable := true
    snapHtml := fun _ => some "\x7b\"playAddr\":\"https://should.not/win2\"\x7d" }

/-- Witness for C5: even though the script text and the snapshot would
match later patterns, the DOM `src` wins and those stages never run. -/
theorem c5_dom_src_verbatim_witness :
    c5World.fetchResult "https://share" =
      Except.ok { status_code := 200, url := "https://resolved", text := c5Body } ∧
    searchKeyUrl "playAddr" c5Body = none ∧ c5World.domVideoSrc "https://share" = some c5Src ∧
    (get_video_info c5World "https://share" =
      ({ title := (searchDesc c5Body).getD defaultTitle,
         video_url := some c5Src, success := true, message := none },
       [Ev.fetch "https://share", Ev.domRender "https://share"]) ∧
    Ev.scriptScan "https://share" ∉ (get_video_info c5World "https://share").2 ∧
    Ev.snapshotRender "https://share" ∉ (get_video_info c5World "https://share").2) :=
  ⟨rfl, by decide, rfl,
    c5_dom_src_verbatim c5World "https://share"
      { status_code := 200, url := "https://resolved", text := c5Body } c5Src rfl (by decide)
      rfl rfl rfl (by decide)⟩

/-! ## Claim C3 -/

/-- Body of the C3 refutation world: a desc is present, nothing else. -/
def c3Body : String := "\x7b\"desc\":\"精彩视频\"\x7d"

/-- World for the C3 refutation: every later stage fails. -/
def c3World : World :=
  { fetchResult := fun _ => Except.ok { status_code := 200, url := "https://resolved", text := c3Body }
    domAvailable := false
    domLaunchOk := fun _ => false
    domVideoSrc := fun _ => none
    scriptsText := fun _ => none
    domPageContent := fun _ => ""
    snapAvailable := false
    snapHtml := fun _ => none }

/-- C3 counterexample: the body carries a desc field with text 精彩视频,
yet the returned title is the placeholder, because the terminal failure
`VideoInfo` of source line 103 is built from the dataclass defaults and
discards the extracted title. -/
theorem c3_counterexample :
    c3World.fetchResult "https://share" =
      Except.ok { status_code := 200, url := "https://resolved", text := c3Body } ∧
    searchDesc c3Body = some "精彩视频" ∧
    (get_video_info c3World "https://share").1.title = defaultTitle ∧
    defaultTitle ≠ "精彩视频" :=
  ⟨rfl, by decide, by decide, by decide⟩

/-- C3 (amended): on every result produced by a successful stage the title
is the desc capture when present and the placeholder otherwise; the
terminal failure result reverts to the placeholder title regardless of the
desc field.  Title extraction never by itself decides success. -/
theorem c3_title_best_effort (w : World) (url : String) (resp : FetchResponse)
    (hf : w.fetchResult url = Except.ok resp) :
    ((get_video_info w url).1.success = true →
      (get_video_info w url).1.title = (searchDesc resp.text).getD defaultTitle) ∧
    ((get_video_info w url).1.success = false →
      (get_video_info w url).1.title = defaultTitle) := by
  rcases get_video_info_ok_fst w url resp hf with ⟨u, hu, heq⟩ | ⟨s, hs, hpa, heq⟩ | heq <;>
    rw [heq]
  · exact ⟨fun _ => rfl, fun h => Bool.noConfusion h⟩
  · exact ⟨fun _ => rfl, fun h => Bool.noConfusion h⟩
  · exact ⟨fun h => Bool.noConfusion h, fun _ => rfl⟩

/-- Body of the C3 witness world: desc plus a static playAddr hit. -/
def c3WitBody : String := "\x7b\"desc\":\"风景\",\"playAddr\":\"https://v/a.mp4\"\x7d"

/-- World for the C3 witness. -/
def c3WitWorld : World :=
  { fetchResult := fun _ => Except.ok { status_code := 200, url := "https://resolved", text := c3WitBody }
    domAvailable := false
    domLaunchOk := fun _ => false
    domVideoSrc := fun _ => none
    scriptsText := fun _ => none
    domPageContent := fun _ => ""
    snapAvailable := false
    snapHtml := fun _ => none }

/-- Witness for C3: a successful extraction carries the desc title. -/
theorem c3_title_best_effort_witness :
    c3WitWorld.fetchResult "https://share" =
      Except.ok { status_code := 200, url := "https://resolved", text := c3WitBody } ∧
    (((get_video_info c3WitWorld "https://share").1.success = true →
      (get_video_info c3WitWorld "https://share").1.title =
        (searchDesc c3WitBody).getD defaultTitle) ∧
    ((get_video_info c3WitWorld "https://share").1.success = false →
      (get_video_info c3WitWorld "https://share").1.title = defaultTitle)) :=
  ⟨rfl, c3_title_best_effort c3WitWorld "https://share"
    { status_code := 200, url := "https://resolved", text := c3WitBody } rfl⟩

/-! ## Claim C6 -/

/-- The DOM src of the C6 refutation: it contains the escape sequence. -/
def c6Src : String := "https://www.site\\u002Fvideo.mp4"

/-- World for the C6 refutation: no static hit, DOM query yields a src
containing the escape sequence. -/
def c6World : World :=
  { fetchResult := fun _ => Except.ok { status_code := 200, url := "https://resolved", text := "<html></html>" }
    domAvailable := true
    domLaunchOk := fun _ => true
    domVideoSrc := fun _ => some c6Src
    scriptsText := fun _ => none
    domPageContent := fun _ => ""
    snapAvailable := false
    snapHtml := fun _ => none }

/-- C6 counterexample: a successful result whose media URL still contains
the escape sequence, produced by the DOM `video src` stage, which returns
the attribute verbatim without decoding (source line 162). -/
theorem c6_counterexample :
    (get_video_info c6World "https://share").1.success = true ∧
    (get_video_info c6World "https://share").1.video_url = some c6Src ∧
    containsSeq c6Src.data = true :=
  ⟨by decide, by decide, by decide⟩

/-- C6 (amended): every successful media URL either contains no escaped
slash sequence (the static, script-scan and snapshot-rescan stages all
decode their captures) or is exactly the DOM `video src` attribute, which
is returned verbatim. -/
theorem c6_normalized_except_dom_src (w : World) (url s : String)
    (h : (get_video_info w url).1.video_url = some s) :
    containsSeq s.data = false ∨ w.domVideoSrc url = some s := by
  cases hf : w.fetchResult url with
  | error exc => simp [get_video_info, hf] at h
  | ok resp =>
    rcases get_video_info_ok_fst w url resp hf with ⟨u, hu, heq⟩ | ⟨s2, hs2, hpa, heq⟩ | heq <;>
      rw [heq] at h
    · have h2 : some (decodeSlashStr u) = some s := h
      injection h2 with h2
      rw [← h2]
      exact Or.inl (containsSeq_decodeSlashStr u)
    · have h2 : some s2 = some s := h
      injection h2 with h2
      subst h2
      rcases extract_playaddr_some hpa with hdom | hscan
      · exact Or.inr hdom
      · exact Or.inl (scanFirst_candidates_props hscan).2
    · exact absurd h (by simp)

/-- Body for the C6 witness: static playAddr with an escaped path. -/
def c6WitBody : String := "\x7b\"playAddr\":\"https://v\\u002Fw.mp4\"\x7d"

/-- World for the C6 witness. -/
def c6WitWorld : World :=
  { fetchResult := fun _ => Except.ok { status_code := 200, url := "https://resolved", text := c6WitBody }
    domAvailable := false
    domLaunchOk := fun _ => false
    domVideoSrc := fun _ => none
    scriptsText := fun _ => none
    domPageContent := fun _ => ""
    snapAvailable := false
    snapHtml := fun _ => none }

/-- Witness for C6: a decoded static hit is free of the escape sequence. -/
theorem c6_normalized_except_dom_src_witness :
    (get_video_info c6WitWorld "https://share").1.video_url = some "https://v/w.mp4" ∧
    (containsSeq "https://v/w.mp4".data = false ∨
      c6WitWorld.domVideoSrc "https://share" = some "https://v/w.mp4") :=
  ⟨by decide, c6_normalized_except_dom_src c6WitWorld "https://share" "https://v/w.mp4" (by decide)⟩

/-! ## Claim C7 -/

/-- C7: for every world and share URL, the result satisfies the data-model
invariant: success iff the media URL is present and non-empty, and failure
iff a failure message is present. -/
theorem c7_result_invariant (w : World) (url : String) :
    ((get_video_info w url).1.success = true ↔
      ∃ s, (get_video_info w url).1.video_url = some s ∧ s ≠ "") ∧
    ((get_video_info w url).1.success = false ↔
      ((get_video_info w url).1.message).isSome = true) := by
  cases hf : w.fetchResult url with
  | error exc =>
    have heq : (get_video_info w url).1 =
        { title := defaultTitle, video_url := none, success := false, message := some exc } := by
      simp [get_video_info, hf]
    rw [heq]
    simp
  | ok resp =>
    rcases get_video_info_ok_fst w url resp hf with ⟨u, hu, heq⟩ | ⟨s, hs, hpa, heq⟩ | heq <;>
      rw [heq]
    · constructor
      · simp only [Option.isSome_none]
        constructor
        · intro _
          exact ⟨decodeSlashStr u, rfl, decodeSlashStr_ne_empty hu⟩
        · intro _
          trivial
      · simp
    · constructor
      · constructor
        · intro _
          exact ⟨s, rfl, hs⟩
        · intro _
          trivial
      · simp
    · simp

/-! ## Claim C8 -/

/-- C8: the script-scan candidates are tried in the fixed source order
playAddr, srcNoMark, downloadAddr, bare-mp4 heuristic, and the first
match wins; consequently, when the DOM query finds no video element and
the script text matches only the downloadAddr field, the pipeline
succeeds with that URL slash-decoded. -/
theorem c8_pattern_priority :
    (∀ st : String, scanFirst candidateSearches st =
      match searchKeyUrl "playAddr" st with
      | some u => some (decodeSlashStr u)
      | none =>
        match searchKeyUrl "srcNoMark" st with
        | some u => some (decodeSlashStr u)
        | none =>
          match searchKeyUrl "downloadAddr" st with
          | some u => some (decodeSlashStr u)
          | none => (searchMp4 st).map decodeSlashStr) ∧
    (∀ (w : World) (url : String) (resp : FetchResponse) (st u : String),
      w.fetchResult url = Except.ok resp →
      searchKeyUrl "playAddr" resp.text = none →
      w.domAvailable = true →
      w.domLaunchOk url = true →
      w.domVideoSrc url = none →
      w.scriptsText url = some st →
      searchKeyUrl "playAddr" st = none →
      searchKeyUrl "srcNoMark" st = none →
      searchKeyUrl "downloadAddr" st = some u →
      get_video_info w url =
        ({ title := (searchDesc resp.text).getD defaultTitle,
           video_url := some (decodeSlashStr u), success := true, message := none },
         [Ev.fetch url, Ev.domRender url, Ev.scriptScan url])) := by
  constructor
  · intro st
    simp only [scanFirst, candidateSearches]
    cases searchKeyUrl "playAddr" st <;>
      cases searchKeyUrl "srcNoMark" st <;>
        cases searchKeyUrl "downloadAddr" st <;>
          cases searchMp4 st <;> rfl
  · intro w url resp st u hf hp hav hl hsrc hst h7 h8 h9
    have hscan : scanFirst candidateSearches st = some (decodeSlashStr u) := by
      simp [scanFirst, candidateSearches, h7, h8, h9]
    have hne : decodeSlashStr u ≠ "" := decodeSlashStr_ne_empty (searchKeyUrl_some_ne h9)
    simp [get_video_info, hf, hp, renderFallback, extract_playaddr_with_playwright, hav, hl,
      hsrc, domScriptScan, hst, hscan, hne]

/-- The script text of the C8 witness: only downloadAddr matches. -/
def c8Script : String :=
  "window.data = \x7b\"downloadAddr\":\"https://x\\u002Fy.mp4\",\"other\":1\x7d;"

/-- World for the C8 witness. -/
def c8World : World :=
  { fetchResult := fun _ => Except.ok { status_code := 200, url := "https://resolved", text := "<html></html>" }
    domAvailable := true
    domLaunchOk := fun _ => true
    domVideoSrc := fun _ => none
    scriptsText := fun _ => some c8Script
    domPageContent := fun _ => ""
    snapAvailable := false
    snapHtml := fun _ => none }

/-- Witness for C8: the downloadAddr field wins and is decoded. -/
theorem c8_pattern_priority_witness :
    searchKeyUrl "playAddr" c8Script = none ∧
    searchKeyUrl "srcNoMark" c8Script = none ∧
    searchKeyUrl "downloadAddr" c8Script = some "https://x\\u002Fy.mp4" ∧
    get_video_info c8World "https://share" =
      ({ title := (searchDesc "<html></html>").getD defaultTitle,
         video_url := some (decodeSlashStr "https://x\\u002Fy.mp4"), success := true,
         message := none },
       [Ev.fetch "https://share", Ev.domRender "https://share", Ev.scriptScan "https://share"]) :=
  ⟨by decide, by decide, by decide,
    c8_pattern_priority.2 c8World "https://share"
      { status_code := 200, url := "https://resolved", text := "<html></html>" }
      c8Script "https://x\\u002Fy.mp4" rfl (by decide) rfl rfl rfl rfl
      (by decide) (by decide) (by decide)⟩

/-! ## Claim C9 -/

/-- C9: `get_video_info` is deterministic with respect to its
collaborators — it is a pure function of the stubbed collaborators'
answers at the queried share URL, so any two invocations whose stubs
answer identically at that URL (in particular, two invocations with the
very same deterministic stubs) return identical results. -/
theorem c9_deterministic (w w' : World) (url : String)
    (h1 : w.fetchResult url = w'.fetchResult url)
    (h2 : w.domAvailable = w'.domAvailable)
    (h3 : w.domLaunchOk url = w'.domLaunchOk url)
    (h4 : w.domVideoSrc url = w'.domVideoSrc url)
    (h5 : w.scriptsText url = w'.scriptsText url)
    (h6 : w.domPageContent url = w'.domPageContent url)
    (h7 : w.snapAvailable = w'.snapAvailable)
    (h8 : w.snapHtml url = w'.snapHtml url) :
    get_video_info w url = get_video_info w' url := by
  simp only [get_video_info, renderFallback, snapshotFallback, extract_playaddr_with_playwright,
    domScriptScan, render_with_playwright, h1, h2, h3, h4, h5, h6, h7, h8]

/-- First world of the C9 witness; its fetch answers differ from
`c9WorldB`'s on every URL other than the probed share URL. -/
def c9WorldA : World :=
  { fetchResult := fun u =>
      if u = "https://share" then Except.ok { status_code := 200, url := "https://r", text := "\x7b\"playAddr\":\"https://m/v\"\x7d" }
      else Except.error "down"
    domAvailable := true
    domLaunchOk := fun _ => true
    domVideoSrc := fun _ => none
    scriptsText := fun _ => none
    domPageContent := fun _ => ""
    snapAvailable := true
    snapHtml := fun _ => none }

/-- Second world of the C9 witness. -/
def c9WorldB : World :=
  { fetchResult := fun u =>
      if u = "https://share" then Except.ok { status_code := 200, url := "https://r", text := "\x7b\"playAddr\":\"https://m/v\"\x7d" }
      else Except.error "unreachable"
    domAvailable := true
    domLaunchOk := fun _ => true
    domVideoSrc := fun _ => none
    scriptsText := fun _ => none
    domPageContent := fun _ => ""
    snapAvailable := true
    snapHtml := fun _ => none }

/-- Witness for C9: the two stub worlds agree at the probed URL, and the
two invocations return identical results. -/
theorem c9_deterministic_witness :
    c9WorldA.fetchResult "https://share" = c9WorldB.fetchResult "https://share" ∧
    get_video_info c9WorldA "https://share" = get_video_info c9WorldB "https://share" :=
  ⟨rfl, c9_deterministic c9WorldA c9WorldB "https://share" rfl rfl rfl rfl rfl rfl rfl rfl⟩

/-! ## Claim C10 -/

/-- Body of the C10 end-to-end world: the playAddr URL mixes a lowercase
escape, a JSON slash escape, and one uppercase escape. -/
def c10Body : String := "\x7b\"playAddr\":\"https://a\\u002fb\\/c\\u002Fd\"\x7d"

/-- World for the C10 end-to-end conjunct. -/
def c10World : World :=
  { fetchResult := fun _ => Except.ok { status_code := 200, url := "https://resolved", text := c10Body }
    domAvailable := false
    domLaunchOk := fun _ => false
    domVideoSrc := fun _ => none
    scriptsText := fun _ => none
    domPageContent := fun _ => ""
    snapAvailable := false
    snapHtml := fun _ => none }

/-- C10: slash decoding replaces exactly the six-character uppercase
sequence and nothing else: any text free of that sequence (in particular
one containing only the lowercase variant or the JSON escape) is left
unchanged, and end to end the returned media URL keeps the lowercase and
JSON escapes while the uppercase one becomes a slash. -/
theorem c10_decode_exact_case_sensitive :
    (∀ l : List Char, containsSeq l = false → decodeSlash l = l) ∧
    decodeSlashStr "\\u002f" = "\\u002f" ∧
    decodeSlashStr "\\/" = "\\/" ∧
    decodeSlashStr "\\u002F" = "/" ∧
    (get_video_info c10World "https://share").1.video_url = some "https://a\\u002fb\\/c/d" :=
  ⟨decodeSlash_of_no_seq, by decide, by decide, by decide, by decide⟩

/-- Witness for C10's universally quantified conjunct, at a concrete
lowercase-escaped URL. -/
theorem c10_decode_exact_case_sensitive_witness :
    containsSeq "https://a\\u002fb".data = false ∧
    decodeSlash "https://a\\u002fb".data = "https://a\\u002fb".data :=
  ⟨by decide, c10_decode_exact_case_sensitive.1 "https://a\\u002fb".data (by decide)⟩
